import Mathlib

/-!
Verification development for the terraform-provider-dataplane reconciliation core.

Shallow embedding of the cluster reconciliation and lifecycle orchestration engine:
the Terraform plugin-framework value types (string/int attributes that can be null,
unknown or known), the ClusterConfiguration record, the cluster-name resolver, the
cluster-settings assembly, the deployment-config secret upsert, the image mirror,
the idempotent-apply primitive (both the current `util.ApplyManifests` and the
legacy `applyManifests` variant), the default-CNI removal step, and the teardown
orchestrator (`Cleanup`) as an event trace.

External APIs (Kubernetes object store, AWS Secrets Manager, image registries) are
modelled as explicit state or response oracles; retry loops are modelled with
explicit fuel equal to the attempt bound of the source retry policy.
-/

/-- Terraform plugin-framework string attribute: null, unknown, or a known string.
Mirrors `basetypes.StringValue`. An unknown value carries the zero string, which is
what `ValueStringPointer` exposes for it. -/
inductive TfString
  | null
  | unknown
  | known (s : String)
deriving DecidableEq, Repr

/-- Go `StringValue.ValueString()`: the known value, or "" for null/unknown. -/
def TfString.valueString : TfString → String
  | .known s => s
  | _ => ""

/-- Go `StringValue.ValueStringPointer()`: nil exactly for null; for unknown the
pointer to the zero-value string. -/
def TfString.valueStringPointer : TfString → Option String
  | .null => none
  | .unknown => some ""
  | .known s => some s

/-- Go `StringValue.IsNull()`. -/
def TfString.isNull : TfString → Bool
  | .null => true
  | _ => false

/-- Go `StringValue.IsUnknown()`. -/
def TfString.isUnknown : TfString → Bool
  | .unknown => true
  | _ => false

/-- Terraform plugin-framework int64 attribute, mirrors `basetypes.Int64Value`. -/
inductive TfInt
  | null
  | unknown
  | known (i : Int)
deriving DecidableEq, Repr

/-- Go `Int64Value.ValueInt64Pointer()`: nil exactly for null; zero for unknown. -/
def TfInt.valueInt64Pointer : TfInt → Option Int
  | .null => none
  | .unknown => some 0
  | .known i => some i

/-- The desired-state record for one data-plane instance, from
`internal/deltastream/aws/config/resource-config.go` (struct `ClusterConfiguration`).
List-valued attributes are modelled after their `ElementsAs` conversion to string
lists. Only fields read by the verified operations are carried. -/
structure ClusterConfiguration where
  stack : TfString
  dsAccountId : TfString
  dsRegion : TfString
  accountId : TfString
  infraId : TfString
  eksResourceId : TfString
  clusterIndex : TfInt
  productVersion : TfString
  vpcId : TfString
  vpcCidr : TfString
  vpcDnsIP : TfString
  privateLinkSubnetIds : List String
  privateSubnetIds : List String
  publicSubnetIds : List String
  metricsUrl : TfString
  interruptionQueueName : TfString
  productArtifactsBucket : TfString
  awsSecretsManagerRoRoleARN : TfString
  infraManagerRoleArn : TfString
  vaultRoleArn : TfString
  vaultInitRoleArn : TfString
  lokiRoleArn : TfString
  tempoRoleArn : TfString
  thanosStoreGatewayRoleArn : TfString
  thanosStoreCompactorRoleArn : TfString
  thanosStoreBucketRoleArn : TfString
  thanosSidecarRoleArn : TfString
  deadmanAlertRoleArn : TfString
  karpenterNodeRoleName : TfString
  karpenterIrsaRoleArn : TfString
  storeProxyRoleArn : TfString
  cw2LokiRoleArn : TfString
  dsCrossAccountRoleArn : TfString
  dpManagerCpRoleArn : TfString
  dpManagerRoleArn : TfString
  kafkaRoleArn : TfString
  awsLoadBalancerControllerRoleARN : TfString
  customCredentialsRoleARN : TfString
  workloadCredentialsMode : TfString
  workloadCredentialsSecret : TfString
  workloadRoleArn : TfString
  workloadManagerRoleArn : TfString
  o11yHostname : TfString
  o11ySubnetMode : TfString
  o11yTlsMode : TfString
  o11yTlsCertificateArn : TfString
  o11yIngressSecurityGroups : TfString
  apiHostname : TfString
  apiSubnetMode : TfString
  apiTlsMode : TfString
  apiTlsCertificateArn : TfString
  apiIngressSecurityGroups : TfString
deriving DecidableEq, Repr

/-- `AWSDataplane.ClusterConfigurationData` from `config/resource-config.go`
(and identically in the legacy schema): the object conversion followed by the
stack defaulting: a null or unknown `stack` is replaced by the known string
"prod". -/
def ClusterConfigurationData (cc : ClusterConfiguration) : ClusterConfiguration :=
  if cc.stack.isNull || cc.stack.isUnknown then
    { cc with stack := .known "prod" }
  else
    cc

/-- The cluster-name derivation from `util/kube-client.go` `GetKubeClusterName`:
`fmt.Sprintf("dp-%s-%s-%s-%d", infraId, stack, eksResourceId, ptr.Deref(clusterIndex, 0))`,
applied to an already-converted configuration record. -/
def getKubeClusterNameOfConfig (c : ClusterConfiguration) : String :=
  "dp-" ++ c.infraId.valueString ++ "-" ++ c.stack.valueString ++ "-" ++
    c.eksResourceId.valueString ++ "-" ++ toString (c.clusterIndex.valueInt64Pointer.getD 0)

/-- `GetKubeClusterName` composed with the configuration conversion, as the Go
function actually runs (`dp.ClusterConfigurationData` then the sprintf). -/
def GetKubeClusterName (cc : ClusterConfiguration) : String :=
  getKubeClusterNameOfConfig (ClusterConfigurationData cc)

/-- The vendor bucket selection at the top of `CopyImages` (part_006): the bucket
is "prod-ds-packages-maven" unless the stack differs from "prod". -/
def vendorBucketName (c : ClusterConfiguration) : String :=
  if c.stack.valueString != "prod" then "deltastream-packages-maven"
  else "prod-ds-packages-maven"

/-- `calcDeploymentConfigSecretName` from `deployment-config.go`:
`fmt.Sprintf("deltastream/%s/dp/%s/aws/%s/%s/deployment-config", stack, infraId, region, eksResourceId)`. -/
def calcDeploymentConfigSecretName (config : ClusterConfiguration) (region : String) : String :=
  "deltastream/" ++ config.stack.valueString ++ "/dp/" ++ config.infraId.valueString ++
    "/aws/" ++ region ++ "/" ++ config.eksResourceId.valueString ++ "/deployment-config"

/-- The derived custom-credentials flag from `cluster-config.go` lines 70-73:
"disabled" unless the role ARN is neither null nor unknown. -/
def customCredentialsEnabled (config : ClusterConfiguration) : String :=
  if config.customCredentialsRoleARN.isNull || config.customCredentialsRoleARN.isUnknown then
    "disabled"
  else
    "enabled"

/-- The cluster-settings data map assembled by `updateClusterConfig`
(`cluster-config.go` lines 75-161), as an association list in source order.
`region` is `cfg.Region`; `clusterName`, `endpoint` and `oidcIssuer` come from the
EKS describe call; `promPushProxyHost` is `url.Parse(config.MetricsUrl).Hostname()`,
an external library computation passed in as an input. Values are the decoded
string contents of the `[]byte` values of the Go map. -/
def buildClusterSettings (config : ClusterConfiguration) (region clusterName endpoint oidcIssuer promPushProxyHost : String) : List (String × String) :=
  [("meshID", "deltastream"),
   ("stack", config.stack.valueString),
   ("cloud", "aws"),
   ("region", region),
   ("topology", "dp"),
   ("dsEcrAccountID", config.accountId.valueString),
   ("awsAccountID", config.accountId.valueString),
   ("infraID", config.infraId.valueString),
   ("infraName", "dp-" ++ config.infraId.valueString),
   ("resourceID", config.eksResourceId.valueString),
   ("clusterName", clusterName),
   ("vpcId", config.vpcId.valueString),
   ("vpcCidr", config.vpcCidr.valueString),
   ("vpcPrivateSubnetIDs", String.intercalate "," config.privateLinkSubnetIds),
   ("clusterPrivateSubnetIDs", String.intercalate "," config.privateSubnetIds),
   ("clusterPublicSubnetIDs", String.intercalate "," config.publicSubnetIds),
   ("discoveryRegion", region),
   ("apiServerURI", endpoint),
   ("apiServerTokenIssuer", oidcIssuer),
   ("loadbalancerClass", "service.k8s.aws/nlb"),
   ("autoscaleMin", "3"),
   ("autoscaleMax", "5"),
   ("externalSecretsRoleARN", config.awsSecretsManagerRoRoleARN.valueString),
   ("infraOperatorRoleARN", config.infraManagerRoleArn.valueString),
   ("vaultRoleARN", config.vaultRoleArn.valueString),
   ("vaultInitRoleARN", config.vaultInitRoleArn.valueString),
   ("lokiRoleARN", config.lokiRoleArn.valueString),
   ("tempoRoleARN", config.tempoRoleArn.valueString),
   ("thanosStoreGatewayRoleARN", config.thanosStoreGatewayRoleArn.valueString),
   ("thanosStoreCompactorRoleARN", config.thanosStoreCompactorRoleArn.valueString),
   ("thanosStoreBucketWebRoleARN", config.thanosStoreBucketRoleArn.valueString),
   ("thanosSideCarRoleARN", config.thanosSidecarRoleArn.valueString),
   ("deadmanAlertRoleARN", config.deadmanAlertRoleArn.valueString),
   ("karpenterRoleName", config.karpenterNodeRoleName.valueString),
   ("karpenterIrsaARN", config.karpenterIrsaRoleArn.valueString),
   ("storeProxyRoleARN", config.storeProxyRoleArn.valueString),
   ("interruptionQueueName", config.interruptionQueueName.valueString),
   ("cw2lokiRoleARN", config.cw2LokiRoleArn.valueString),
   ("dpManagerCPAssumeRoleARN", config.dpManagerCpRoleArn.valueString),
   ("dpManagerRoleARN", config.dpManagerRoleArn.valueString),
   ("deltastreamCrossAccountRoleARN", config.dsCrossAccountRoleArn.valueString),
   ("kafkaRoleARN", config.kafkaRoleArn.valueString),
   ("awsLoadBalancerControllerRoleARN", config.awsLoadBalancerControllerRoleARN.valueString),
   ("cpPrometheusPushProxyUrl", config.metricsUrl.valueString),
   ("cpPrometheusPushProxyHost", promPushProxyHost),
   ("cpPrometheusPushProxyPort", "\"443\""),
   ("grafanaVpcHostname", config.o11yHostname.valueString),
   ("ciliumPolicyAuditMode", "false"),
   ("ciliumPolicyEnforcementMode", "always"),
   ("grafanaIngressMode", "default"),
   ("istioIngressMode", "default"),
   ("grafanaHostname", config.o11yHostname.valueString),
   ("o11yEndpointSubnet", config.o11ySubnetMode.valueString),
   ("o11yTlsTermination", config.o11yTlsMode.valueString),
   ("grafanaNlbCertificateArn", config.o11yTlsCertificateArn.valueStringPointer.getD ""),
   ("o11yEndpointSecurityGroups", config.o11yIngressSecurityGroups.valueStringPointer.getD ""),
   ("apiHostname", config.apiHostname.valueString),
   ("apiEndpointSubnet", config.apiSubnetMode.valueString),
   ("apiTlsTermination", config.apiTlsMode.valueString),
   ("apiServerNlbCertificateArn", config.apiTlsCertificateArn.valueStringPointer.getD ""),
   ("apiEndpointSecurityGroups", config.apiIngressSecurityGroups.valueStringPointer.getD ""),
   ("grafanaPromPushProxVpcHostname", config.metricsUrl.valueString),
   ("prometheusLocalTSDBRetention", "5d"),
   ("prometheusMemoryLimit", "4Gi"),
   ("prometheusPVCStorageSize", "300Gi"),
   ("thanosQueryMemoryLimit", "1.2Gi"),
   ("thanosStoreMemoryLimit", "1.2Gi"),
   ("vpcDnsIP", config.vpcDnsIP.valueString),
   ("workloadCredsMode", config.workloadCredentialsMode.valueStringPointer.getD "iamrole"),
   ("dpOperatorUserAwsSecret", config.workloadCredentialsSecret.valueStringPointer.getD ""),
   ("workloadIamRoleArn", config.workloadRoleArn.valueStringPointer.getD ""),
   ("workloadManagerIamRoleArn", config.workloadManagerRoleArn.valueStringPointer.getD ""),
   ("customCredentialsRoleARN", config.customCredentialsRoleARN.valueStringPointer.getD ""),
   ("enableCustomCredentialsPlugin", customCredentialsEnabled config)]

/-- One secret in the AWS Secrets Manager model: its current value and tags. -/
structure SecretEntry where
  value : String
  tags : List (String × String)
deriving DecidableEq, Repr

/-- The fixed tag set attached by `UpdateDeploymentConfig` when it creates the
deployment-config secret (`deployment-config.go` lines 265-273). -/
def deploymentConfigTags (config : ClusterConfiguration) (region : String) : List (String × String) :=
  [("deltastream-io-region", region),
   ("deltastream-io-team", "true"),
   ("deltastream-io-is-prod", "true"),
   ("deltastream-io-env", config.stack.valueString),
   ("deltastream-io-id", config.infraId.valueString),
   ("deltastream-io-name", "dp-" ++ config.infraId.valueString),
   ("deltastream-io-is-byoc", "true")]

/-- Which write the deployment-config publisher performed. -/
inductive UpsertAction
  | created
  | replaced
deriving DecidableEq, Repr

/-- The upsert decision of `UpdateDeploymentConfig` (`deployment-config.go` lines
256-291). The secret store is an association list from secret name to entry;
`DescribeSecret` failing with `ResourceNotFoundException` is modelled as the name
being absent from the store. On not-found the secret is created with the fixed tag
set; otherwise `PutSecretValue` replaces the stored value in place, leaving the
existing tags untouched. `putSecretValueStore` is the store-side effect of
`PutSecretValue`: the entry under the given name gets the new value, keeping its
tags; every other entry is unchanged. -/
def putSecretValueStore (name value : String) : List (String × SecretEntry) → List (String × SecretEntry)
  | [] => []
  | (k, e) :: rest =>
    if k == name then (k, ⟨value, e.tags⟩) :: putSecretValueStore name value rest
    else (k, e) :: putSecretValueStore name value rest

def upsertDeploymentConfig (store : List (String × SecretEntry)) (config : ClusterConfiguration) (region : String) (value : String) : List (String × SecretEntry) × UpsertAction :=
  let name := calcDeploymentConfigSecretName config region
  match store.lookup name with
  | none => ((name, ⟨value, deploymentConfigTags config region⟩) :: store, .created)
  | some _ => (putSecretValueStore name value store, .replaced)

/-- Vendor-registry image reference built in the `CopyImages` loop (part_006 line 93):
`fmt.Sprintf("//%s.dkr.ecr.%s.amazonaws.com/%s", dsAccountId, region, image)`. -/
def sourceImageRef (dsAccountId region image : String) : String :=
  "//" ++ dsAccountId ++ ".dkr.ecr." ++ region ++ ".amazonaws.com/" ++ image

/-- Destination-registry image reference built in the `CopyImages` loop (part_006
line 94), identical to the source except for the account. -/
def destImageRef (accountId region image : String) : String :=
  "//" ++ accountId ++ ".dkr.ecr." ++ region ++ ".amazonaws.com/" ++ image

/-- The per-image copy loop of `CopyImages` (part_006 lines 92-100). `copyFails`
is the oracle for `copyImage` failing on a given source/destination pair. Returns
the list of (source, destination) copies attempted, in order, and whether the loop
finished; the first failure aborts the loop with the remaining images unattempted. -/
def copyImagesLoop (copyFails : String → String → Bool) (dsAccountId accountId region : String) : List String → List (String × String) × Bool
  | [] => ([], true)
  | image :: rest =>
    let src := sourceImageRef dsAccountId region image
    let dst := destImageRef accountId region image
    if copyFails src dst then ([(src, dst)], false)
    else
      let (attempts, ok) := copyImagesLoop copyFails dsAccountId accountId region rest
      ((src, dst) :: attempts, ok)

/-- One Kubernetes object in the apply-primitive model: its optimistic-concurrency
token (resourceVersion) and its meaningful data (the manifest content installed by
the apply). -/
structure KubeObj where
  resourceVersion : Nat
  data : String
deriving DecidableEq, Repr

/-- The cluster-side state of the one object an apply targets. -/
def KubeState := Option KubeObj
deriving DecidableEq, Repr

/-- The retry loop of `util.ApplyManifests` (`util/kube-client.go` lines 185-202)
for a single manifest document. The whole fetch-mutate-write closure runs inside
`retry.Do(retry.WithMaxRetries(5, ...))`, so `fuel` is 6 = 1 initial attempt + 5
retries. `interf` models concurrent writers: `interf attempt s` is the cluster
state at write time of the given attempt, after the attempt read `s` (the Get).
A Get of an absent object leads to Create (AlreadyExists is retryable); a Get of a
present object leads to Update carrying the freshly read resourceVersion (a
conflict or disappearance is retryable and re-runs the whole cycle against the
current state). Returns (success, final cluster state). -/
def applyManifestLoop (desired : String) (interf : Nat → KubeState → KubeState) : Nat → Nat → KubeState → Bool × KubeState
  | 0, _, s => (false, s)
  | fuel + 1, attempt, s =>
    match s with
    | none =>
      match interf attempt s with
      | none => (true, some ⟨0, desired⟩)
      | some _ => applyManifestLoop desired interf fuel (attempt + 1) (interf attempt s)
    | some fetched =>
      match interf attempt s with
      | none => applyManifestLoop desired interf fuel (attempt + 1) (interf attempt s)
      | some current =>
        if current.resourceVersion = fetched.resourceVersion then
          (true, some ⟨fetched.resourceVersion + 1, desired⟩)
        else
          applyManifestLoop desired interf fuel (attempt + 1) (interf attempt s)

/-- The legacy `applyManifests` (part_003 lines 168-204) for a single manifest:
one Get; if absent, one Create (not retried); if present, the desired object
takes the fetched resourceVersion once and `kubeClient.Update` runs inside
`retry.Do` — but its error is returned unwrapped (never marked
`retry.RetryableError`), which the retry wrapper treats as terminal, so the
Update executes once: a stale-token conflict fails the apply immediately,
without any re-fetch. -/
def legacyApplyManifest (desired : String) (interf : Nat → KubeState → KubeState) (s : KubeState) : Bool × KubeState :=
  match s with
  | none => (true, some ⟨0, desired⟩)
  | some fetched =>
    match interf 0 s with
    | none => (false, none)
    | some current =>
      if current.resourceVersion = fetched.resourceVersion then
        (true, some ⟨fetched.resourceVersion + 1, desired⟩)
      else (false, some current)

/-- A single conflicting writer: between the Get and the write of attempt 0 it
replaces the object with its own data at resourceVersion 1; afterwards it is quiet. -/
def conflictOnceInterf : Nat → KubeState → KubeState :=
  fun attempt s => if attempt == 0 then some ⟨1, "other"⟩ else s

/-- Response of the Kubernetes API to one Get or Delete call in the
kustomization-teardown model. -/
inductive ApiResp
  | ok
  | notFound
  | transientErr
deriving DecidableEq, Repr

/-- `getKustomization` (`destroy.go` lines 27-44): retried Get with
`retry.WithMaxRetries(5, ...)` (fuel 6 = 1 + 5 retries). Outer none: retries
exhausted, a fatal error. Inner value: `some ()` when found, `none` when the API
said not-found (mapped to an absent result, not an error). -/
def getKustomizationLoop (resp : Nat → ApiResp) : Nat → Nat → Option (Option Unit)
  | 0, _ => none
  | fuel + 1, attempt =>
    match resp attempt with
    | .ok => some (some ())
    | .notFound => some none
    | .transientErr => getKustomizationLoop resp fuel (attempt + 1)

/-- The delete retry loop inside `deleteKustomization` (`destroy.go` lines 55-64):
not-found during the delete call itself is treated as success; other errors are
retried up to the same bound. -/
def deleteKustomizationLoop (resp : Nat → ApiResp) : Nat → Nat → Option Unit
  | 0, _ => none
  | fuel + 1, attempt =>
    match resp attempt with
    | .ok => some ()
    | .notFound => some ()
    | .transientErr => deleteKustomizationLoop resp fuel (attempt + 1)

/-- Result of one `deleteKustomization` run: whether it surfaced an error and
whether the Delete call was ever issued. -/
structure DeleteKResult where
  error : Bool
  deleteCalled : Bool
deriving DecidableEq, Repr

/-- `deleteKustomization` (`destroy.go` lines 46-70): get the kustomization; on a
fatal get, error out; when absent, skip the delete entirely; when present, run the
retried delete. -/
def deleteKustomizationRun (getResp delResp : Nat → ApiResp) : DeleteKResult :=
  match getKustomizationLoop getResp 6 0 with
  | none => ⟨true, false⟩
  | some none => ⟨false, false⟩
  | some (some _) =>
    match deleteKustomizationLoop delResp 6 0 with
    | none => ⟨true, true⟩
    | some _ => ⟨false, true⟩

/-- Environment of one `DeleteAwsNode` run (part_006 lines 273-318): whether the
vendor-default CNI daemonset and its service account exist, and whether their
Delete calls succeed. Gets that find nothing return not-found. -/
structure CNIEnv where
  dsPresent : Bool
  saPresent : Bool
  dsDeleteOk : Bool
  saDeleteOk : Bool
deriving DecidableEq, Repr

/-- Result of `DeleteAwsNode`: error surfaced, which objects were deleted, and
whether `restartNodes` (the EC2 reboot of all node-group instances) was invoked. -/
structure CNIResult where
  error : Bool
  dsDeleted : Bool
  saDeleted : Bool
  restartCalled : Bool
deriving DecidableEq, Repr

/-- `DeleteAwsNode` (part_006 lines 273-318): not-found on either Get is not an
error and skips that deletion; each successful deletion of a present object sets
`nodeRequiresRestart`; `restartNodes` runs exactly when that flag was set. A
failing Delete aborts immediately. -/
def deleteAwsNodeRun (env : CNIEnv) : CNIResult :=
  if env.dsPresent then
    if env.dsDeleteOk then
      if env.saPresent then
        if env.saDeleteOk then ⟨false, true, true, true⟩
        else ⟨true, true, false, false⟩
      else ⟨false, true, false, true⟩
    else ⟨true, false, false, false⟩
  else
    if env.saPresent then
      if env.saDeleteOk then ⟨false, false, true, true⟩
      else ⟨true, false, false, false⟩
    else ⟨false, false, false, false⟩

/-- The instance-id extraction of `restartNodes` (`eks-nodegroup.go` lines 53-59):
`filepath.Base(url.Parse(node.Spec.ProviderID).Path)`, i.e. the final
slash-separated segment of the provider-id path (e.g.
"aws:///us-west-2a/i-0abc" yields "i-0abc"). -/
def instanceIdOfProviderPath (path : String) : String :=
  match (path.splitOn "/").getLast? with
  | some seg => seg
  | none => path

/-- Observable actions of the teardown orchestrator, in execution order. -/
inductive Event
  | suspendAttempt (name : String)
  | suspendDone (name : String)
  | svcDelete (name : String)
  | deleteAttempt (name : String)
  | deleteDone (name : String)
  | secretDelete (name : String)
deriving DecidableEq, Repr

/-- Outcome of one suspend/delete kustomization step, abstracting over the
bounded retries inside it: the object was absent, it was present and the
operation succeeded, the initial get exhausted its retries, or the
update/delete exhausted its retries. -/
inductive KOutcome
  | absent
  | present
  | getFatal
  | opFatal
deriving DecidableEq, Repr

/-- `suspendKustomization` (`destroy.go` lines 72-95) as a trace fragment:
`suspendAttempt` marks the step starting (the get), `suspendDone` marks the step
completing — either the object was confirmed absent (nil kustomization, update
skipped) or the suspend update succeeded. The Bool is false when the step
surfaced a fatal error, which aborts the caller. -/
def suspendStep (name : String) (o : KOutcome) : List Event × Bool :=
  match o with
  | .absent => ([.suspendAttempt name, .suspendDone name], true)
  | .present => ([.suspendAttempt name, .suspendDone name], true)
  | .getFatal => ([.suspendAttempt name], false)
  | .opFatal => ([.suspendAttempt name], false)

/-- `deleteKustomization` (`destroy.go` lines 46-70) as a trace fragment:
`deleteAttempt` marks the step starting, `deleteDone` marks its completion
(object absent, deleted, or not-found during delete). -/
def deleteStep (name : String) (o : KOutcome) : List Event × Bool :=
  match o with
  | .absent => ([.deleteAttempt name, .deleteDone name], true)
  | .present => ([.deleteAttempt name, .deleteDone name], true)
  | .getFatal => ([.deleteAttempt name], false)
  | .opFatal => ([.deleteAttempt name], false)

/-- One service listed in the istio-system namespace during `Cleanup`. -/
structure Svc where
  name : String
  isLB : Bool
  deleteOk : Bool
deriving DecidableEq, Repr

/-- The service-deletion loop of `Cleanup` (`destroy.go` lines 123-142):
non-LoadBalancer services are skipped; each LoadBalancer service is deleted
(not-found counting as success); a delete that exhausts its retries aborts the
loop. -/
def deleteLbServices : List Svc → List Event × Bool
  | [] => ([], true)
  | svc :: rest =>
    if !svc.isLB then deleteLbServices rest
    else if svc.deleteOk then
      (.svcDelete svc.name :: (deleteLbServices rest).1, (deleteLbServices rest).2)
    else ([.svcDelete svc.name], false)

/-- Environment of one `Cleanup` run (`destroy.go` lines 97-185): the outcome of
each kustomization step, whether listing services succeeds, and the listed
services. -/
structure CleanupEnv where
  istio : KOutcome
  listOk : Bool
  services : List Svc
  dataPlane : KOutcome
  infraSuspend : KOutcome
  obsAddons : KOutcome
  obs : KOutcome
  karpenterProvisioner : KOutcome
  infraDelete : KOutcome
  secretName : String
deriving Repr

/-- The event trace of `Cleanup` (`destroy.go` lines 97-185): suspend the istio
kustomization; list the services in istio-system and delete the LoadBalancer
ones; delete the data-plane kustomization; suspend the infra kustomization;
delete observability-addons, observability, karpenter-provisioner and infra; then
delete the deployment-config secret. Every step aborts the sequence on a fatal
error. -/
def cleanupTrace (env : CleanupEnv) : List Event :=
  let s1 := suspendStep "istio" env.istio
  let e1 := s1.1
  if !s1.2 then e1 else
  if !env.listOk then e1 else
  let d := deleteLbServices env.services
  let e2 := d.1
  if !d.2 then e1 ++ e2 else
  let s3 := deleteStep "data-plane" env.dataPlane
  let e3 := s3.1
  if !s3.2 then e1 ++ e2 ++ e3 else
  let s4 := suspendStep "infra" env.infraSuspend
  let e4 := s4.1
  if !s4.2 then e1 ++ e2 ++ e3 ++ e4 else
  let s5 := deleteStep "observability-addons" env.obsAddons
  let e5 := s5.1
  if !s5.2 then e1 ++ e2 ++ e3 ++ e4 ++ e5 else
  let s6 := deleteStep "observability" env.obs
  let e6 := s6.1
  if !s6.2 then e1 ++ e2 ++ e3 ++ e4 ++ e5 ++ e6 else
  let s7 := deleteStep "karpenter-provisioner" env.karpenterProvisioner
  let e7 := s7.1
  if !s7.2 then e1 ++ e2 ++ e3 ++ e4 ++ e5 ++ e6 ++ e7 else
  let s8 := deleteStep "infra" env.infraDelete
  let e8 := s8.1
  if !s8.2 then e1 ++ e2 ++ e3 ++ e4 ++ e5 ++ e6 ++ e7 ++ e8 else
  e1 ++ e2 ++ e3 ++ e4 ++ e5 ++ e6 ++ e7 ++ e8 ++ [.secretDelete env.secretName]

/-- The skip predicate of the kustomization-deletion loop in the second `Cleanup`
variant (`deployment-config.go` line 471): the kustomizations exempted from
blanket deletion. -/
def kustomizationDeleteSkip (name : String) : Bool :=
  name == "infra" || name == "cilium" || name == "cilium-cluster-policies" ||
    name == "karpenter" || name == "kyverno" || name == "kyverno-policies"

/-- The blanket kustomization-deletion loop of the second `Cleanup` variant
(`deployment-config.go` lines 470-479): for every listed kustomization not in the
skip set, run `deleteKustomization`; a fatal delete aborts the loop. `outcome`
gives each named kustomization's step outcome. -/
def deleteManagedKustomizations (outcome : String → KOutcome) : List String → List Event × Bool
  | [] => ([], true)
  | name :: rest =>
    if kustomizationDeleteSkip name then deleteManagedKustomizations outcome rest
    else
      if (deleteStep name (outcome name)).2 then
        ((deleteStep name (outcome name)).1 ++ (deleteManagedKustomizations outcome rest).1,
         (deleteManagedKustomizations outcome rest).2)
      else ((deleteStep name (outcome name)).1, false)

/-- Modelled from the spec: the allow-list the specification describes — "a fixed
allow-list of foundational ones (CNI, node-provisioner, policy-engine)" — i.e.
the CNI (cilium and its cluster policies), the node-provisioner (karpenter) and
the policy-engine (kyverno and its policies) kustomizations, for comparison with
the skip set actually hardcoded in the source. -/
def specFoundationalAllowList : List String :=
  ["cilium", "cilium-cluster-policies", "karpenter", "kyverno", "kyverno-policies"]

/-- Event `a` precedes every occurrence of event `b` in the trace `tr`. -/
def Precedes (a b : Event) (tr : List Event) : Prop :=
  ∀ n : Nat, tr[n]? = some b → ∃ m : Nat, m < n ∧ tr[m]? = some a

/-- A fully populated sample configuration, used to evaluate the verified
operations on concrete input. -/
def sampleConfig : ClusterConfiguration where
  stack := .known "prod"
  dsAccountId := .known "345678901234"
  dsRegion := .known "us-east-1"
  accountId := .known "123456789012"
  infraId := .known "ds123"
  eksResourceId := .known "0"
  clusterIndex := .known 0
  productVersion := .known "1.0.0"
  vpcId := .known "vpc-1"
  vpcCidr := .known "10.0.0.0/16"
  vpcDnsIP := .known "10.0.0.2"
  privateLinkSubnetIds := ["subnet-a"]
  privateSubnetIds := ["subnet-b", "subnet-c", "subnet-d"]
  publicSubnetIds := ["subnet-e"]
  metricsUrl := .known "https://metrics-push-proxy.deltastream.io"
  interruptionQueueName := .known "ds123-0-0-interruption-queue"
  productArtifactsBucket := .known "s3-artifacts-buckets"
  awsSecretsManagerRoRoleARN := .known "arn:aws:iam::123456789012:role/aws-secrets-ro-role"
  infraManagerRoleArn := .known "arn:aws:iam::123456789012:role/infra-manager-role"
  vaultRoleArn := .known "arn:aws:iam::123456789012:role/vault-role"
  vaultInitRoleArn := .known "arn:aws:iam::123456789012:role/vault-init-role"
  lokiRoleArn := .known "arn:aws:iam::123456789012:role/loki-role"
  tempoRoleArn := .known "arn:aws:iam::123456789012:role/tempo-role"
  thanosStoreGatewayRoleArn := .known "arn:aws:iam::123456789012:role/thanos-gw-role"
  thanosStoreCompactorRoleArn := .known "arn:aws:iam::123456789012:role/thanos-compactor-role"
  thanosStoreBucketRoleArn := .known "arn:aws:iam::123456789012:role/thanos-bucket-role"
  thanosSidecarRoleArn := .known "arn:aws:iam::123456789012:role/thanos-sidecar-role"
  deadmanAlertRoleArn := .known "arn:aws:iam::123456789012:role/deadman-alert-role"
  karpenterNodeRoleName := .known "karpenter-node-role"
  karpenterIrsaRoleArn := .known "arn:aws:iam::123456789012:role/karpenter-irsa-role"
  storeProxyRoleArn := .known "arn:aws:iam::123456789012:role/store-proxy-role"
  cw2LokiRoleArn := .known "arn:aws:iam::123456789012:role/cw2loki-role"
  dsCrossAccountRoleArn := .known "arn:aws:iam::123456789012:role/ds-cross-account-role"
  dpManagerCpRoleArn := .known "arn:aws:iam::123456789012:role/dp-manager-cp-role"
  dpManagerRoleArn := .known "arn:aws:iam::123456789012:role/dp-manager-role"
  kafkaRoleArn := .known "arn:aws:iam::123456789012:role/kafka-role"
  awsLoadBalancerControllerRoleARN := .known "arn:aws:iam::123456789012:role/aws-lbc-role"
  customCredentialsRoleARN := .null
  workloadCredentialsMode := .known "iamrole"
  workloadCredentialsSecret := .null
  workloadRoleArn := .null
  workloadManagerRoleArn := .known "arn:aws:iam::123456789012:role/workload-manager-role"
  o11yHostname := .known "o11y.ds123.com"
  o11ySubnetMode := .known "public"
  o11yTlsMode := .known "acme"
  o11yTlsCertificateArn := .null
  o11yIngressSecurityGroups := .null
  apiHostname := .known "api.ds123.com"
  apiSubnetMode := .known "public"
  apiTlsMode := .known "acme"
  apiTlsCertificateArn := .null
  apiIngressSecurityGroups := .null

/-- A sample teardown environment in which everything exists and every call
succeeds, used to evaluate the teardown trace on concrete input. -/
def sampleCleanupEnv : CleanupEnv where
  istio := .absent
  listOk := true
  services := [⟨"istio-ingress", true, true⟩]
  dataPlane := .absent
  infraSuspend := .absent
  obsAddons := .absent
  obs := .absent
  karpenterProvisioner := .absent
  infraDelete := .absent
  secretName := "deltastream/prod/dp/ds123/aws/us-west-2/0/deployment-config"

/-! ## Helper lemmas -/

theorem precedes_of_notMem {a b : Event} {tr : List Event} (h : b ∉ tr) : Precedes a b tr := by
  intro n hn
  exact absurd (List.getElem?_mem hn) h

theorem precedes_of_split : ∀ (q post : List Event) {a b : Event}, b ∉ q → b ≠ a →
    Precedes a b (q ++ a :: post)
  | [], post, a, b, _, hba => by
    intro n hn
    cases n with
    | zero => simp at hn; exact absurd hn.symm hba
    | succ n => exact ⟨0, Nat.succ_pos n, by simp⟩
  | x :: q, post, a, b, hb, hba => by
    intro n hn
    cases n with
    | zero =>
      simp at hn
      exact absurd hn.symm (fun he => hb (he ▸ List.mem_cons_self x q))
    | succ n =>
      obtain ⟨m, hm, hm2⟩ :=
        precedes_of_split q post (fun h => hb (List.mem_cons_of_mem x h)) hba n
          (by simpa using hn)
      exact ⟨m + 1, Nat.succ_lt_succ hm, by simpa using hm2⟩

theorem precedes_append_left {a b : Event} (pre tr : List Event) (hb : b ∉ pre)
    (h : Precedes a b tr) : Precedes a b (pre ++ tr) := by
  intro n hn
  by_cases hlt : n < pre.length
  · rw [List.getElem?_append_left hlt] at hn
    exact absurd (List.getElem?_mem hn) hb
  · push_neg at hlt
    rw [List.getElem?_append_right hlt] at hn
    obtain ⟨m, hm, hm2⟩ := h _ hn
    refine ⟨m + pre.length, by omega, ?_⟩
    rw [List.getElem?_append_right (by omega)]
    simpa using hm2

theorem precedes_ite {a b : Event} (c : Prop) [Decidable c] {t e : List Event}
    (ht : Precedes a b t) (he : Precedes a b e) : Precedes a b (if c then t else e) := by
  by_cases hc : c <;> simp [hc] <;> assumption

theorem precedes_ite_h {a b : Event} (c : Prop) [Decidable c] {t e : List Event}
    (ht : c → Precedes a b t) (he : ¬c → Precedes a b e) :
    Precedes a b (if c then t else e) := by
  by_cases hc : c <;> simp [hc]
  · exact ht hc
  · exact he hc

theorem mem_suspendStep {e : Event} (name : String) (o : KOutcome)
    (h : e ∈ (suspendStep name o).1) :
    e = .suspendAttempt name ∨ e = .suspendDone name := by
  cases o <;> simp [suspendStep] at h <;> tauto

theorem mem_deleteStep {e : Event} (name : String) (o : KOutcome)
    (h : e ∈ (deleteStep name o).1) :
    e = .deleteAttempt name ∨ e = .deleteDone name := by
  cases o <;> simp [deleteStep] at h <;> tauto

theorem mem_deleteLbServices {e : Event} :
    ∀ svcs : List Svc, e ∈ (deleteLbServices svcs).1 → ∃ s, e = .svcDelete s
  | [], h => by simp [deleteLbServices] at h
  | svc :: rest, h => by
    by_cases hlb : svc.isLB
    · by_cases hok : svc.deleteOk
      · simp only [deleteLbServices, hlb, hok] at h
        rcases (by simpa using h : e = Event.svcDelete svc.name ∨
            e ∈ (deleteLbServices rest).1) with h | h
        · exact ⟨svc.name, h⟩
        · exact mem_deleteLbServices rest h
      · simp only [deleteLbServices, hlb, hok] at h
        simp at h
        exact ⟨svc.name, h⟩
    · simp only [deleteLbServices, hlb] at h
      exact mem_deleteLbServices rest (by simpa using h)

theorem deleteStep_ok (name : String) (o : KOutcome) (h : (deleteStep name o).2 = true) :
    (deleteStep name o).1 = [.deleteAttempt name, .deleteDone name] := by
  cases o <;> simp_all [deleteStep]

/-! ## C2: cluster name derivation -/

/-- C2: for every ClusterConfiguration, the derived cluster name is the pure
deterministic string "dp-" + infraId + "-" + stack + "-" + resourceId + "-" +
clusterIndex; the output depends on those four fields only, so the same input
always yields the same output independent of call order or external state. -/
theorem clusterName_formula_and_pure (c : ClusterConfiguration) :
    getKubeClusterNameOfConfig c =
      "dp-" ++ c.infraId.valueString ++ "-" ++ c.stack.valueString ++ "-" ++
        c.eksResourceId.valueString ++ "-" ++
        toString (c.clusterIndex.valueInt64Pointer.getD 0) ∧
    ∀ c₂ : ClusterConfiguration, c.infraId = c₂.infraId → c.stack = c₂.stack →
      c.eksResourceId = c₂.eksResourceId → c.clusterIndex = c₂.clusterIndex →
      getKubeClusterNameOfConfig c = getKubeClusterNameOfConfig c₂ := by
  refine ⟨rfl, ?_⟩
  intro c₂ h1 h2 h3 h4
  simp [getKubeClusterNameOfConfig, h1, h2, h3, h4]

/-- Witness for C2 at a concrete configuration: the formula evaluates to
"dp-ds123-prod-0-0" and the name ignores a change to an unrelated field. -/
theorem clusterName_formula_and_pure_witness :
    getKubeClusterNameOfConfig sampleConfig = "dp-ds123-prod-0-0" ∧
    getKubeClusterNameOfConfig sampleConfig =
      getKubeClusterNameOfConfig { sampleConfig with accountId := .known "999999999999" } :=
  ⟨((clusterName_formula_and_pure sampleConfig).1).trans (by decide),
   (clusterName_formula_and_pure sampleConfig).2 _ rfl rfl rfl rfl⟩

/-! ## C10: implicit "prod" stack default -/

/-- C10: when the configuration's stack attribute is null or unknown,
ClusterConfigurationData substitutes the known string "prod", and every
downstream derived value (cluster name, deployment-config secret name, vendor
bucket selection) therefore uses "prod" as the stack. -/
theorem stackDefaultsToProd (cc : ClusterConfiguration) (region : String)
    (h : cc.stack = .null ∨ cc.stack = .unknown) :
    (ClusterConfigurationData cc).stack = .known "prod" ∧
    GetKubeClusterName cc =
      "dp-" ++ cc.infraId.valueString ++ "-" ++ "prod" ++ "-" ++
        cc.eksResourceId.valueString ++ "-" ++
        toString (cc.clusterIndex.valueInt64Pointer.getD 0) ∧
    calcDeploymentConfigSecretName (ClusterConfigurationData cc) region =
      "deltastream/" ++ "prod" ++ "/dp/" ++ cc.infraId.valueString ++ "/aws/" ++ region ++
        "/" ++ cc.eksResourceId.valueString ++ "/deployment-config" ∧
    vendorBucketName (ClusterConfigurationData cc) = "prod-ds-packages-maven" := by
  have hd : ClusterConfigurationData cc = { cc with stack := .known "prod" } := by
    rcases h with h | h <;>
      simp [ClusterConfigurationData, h, TfString.isNull, TfString.isUnknown]
  rw [GetKubeClusterName, hd]
  exact ⟨rfl, rfl, rfl, by simp [vendorBucketName, TfString.valueString]⟩

/-- Witness for C10: a configuration with a null stack yields the "prod"
cluster name, secret path and vendor bucket. -/
theorem stackDefaultsToProd_witness :
    ((TfString.null = TfString.null ∨ TfString.null = TfString.unknown) ∧
     (ClusterConfigurationData { sampleConfig with stack := .null }).stack = .known "prod" ∧
     vendorBucketName (ClusterConfigurationData { sampleConfig with stack := .null }) =
       "prod-ds-packages-maven") :=
  ⟨Or.inl rfl,
   (stackDefaultsToProd { sampleConfig with stack := .null } "us-west-2" (Or.inl rfl)).1,
   (stackDefaultsToProd { sampleConfig with stack := .null } "us-west-2" (Or.inl rfl)).2.2.2⟩

/-! ## C5: deployment-config secret name and upsert -/

theorem lookup_put_self (name v : String) :
    ∀ (store : List (String × SecretEntry)) (e : SecretEntry),
      store.lookup name = some e →
      (putSecretValueStore name v store).lookup name = some ⟨v, e.tags⟩
  | [], e, h => by simp at h
  | (k, w) :: rest, e, h => by
    by_cases hk : k = name
    · subst hk
      have hw : w = e := by simpa [List.lookup] using h
      subst hw
      simp [putSecretValueStore, List.lookup]
    · have hk3 : (k == name) = false := by simpa using hk
      have hk2 : (name == k) = false := by simpa using fun he => hk he.symm
      have h' : rest.lookup name = some e := by simpa [List.lookup, hk2] using h
      simpa [putSecretValueStore, hk3, List.lookup, hk2] using
        lookup_put_self name v rest e h'

theorem lookup_put_other (name v k : String) (hk : k ≠ name) :
    ∀ store : List (String × SecretEntry),
      (putSecretValueStore name v store).lookup k = store.lookup k
  | [] => by simp [putSecretValueStore]
  | (k', w) :: rest => by
    have ih := lookup_put_other name v k hk rest
    by_cases hk' : k' = name
    · have hb : (k' == name) = true := by simpa using hk'
      have hkk : (k == k') = false := by
        simp only [beq_eq_false_iff_ne]
        exact fun he => hk (he.trans hk')
      simp [putSecretValueStore, hb, List.lookup, hkk, ih]
    · have hb : (k' == name) = false := by simpa using hk'
      simp only [putSecretValueStore, hb, Bool.false_eq_true, if_false, List.lookup]
      cases hkk : (k == k') with
      | true => rfl
      | false => exact ih

/-- C5: the deployment-config secret name is the deterministic path
"deltastream/" + stack + "/dp/" + infraId + "/aws/" + region + "/" + eksResourceId
+ "/deployment-config"; the publisher creates the secret with the fixed tag set
exactly when describing it fails with resource-not-found (the name is absent from
the store), and otherwise fully replaces the stored value in place — the new value
is independent of the old one, the tags are untouched, and no other secret is
affected. -/
theorem deploymentConfigSecret_name_and_upsert (config : ClusterConfiguration)
    (region : String) (store : List (String × SecretEntry)) (value : String) :
    calcDeploymentConfigSecretName config region =
      "deltastream/" ++ config.stack.valueString ++ "/dp/" ++ config.infraId.valueString ++
        "/aws/" ++ region ++ "/" ++ config.eksResourceId.valueString ++ "/deployment-config" ∧
    (store.lookup (calcDeploymentConfigSecretName config region) = none →
      upsertDeploymentConfig store config region value =
        ((calcDeploymentConfigSecretName config region,
          ⟨value, deploymentConfigTags config region⟩) :: store, .created)) ∧
    (∀ e : SecretEntry,
      store.lookup (calcDeploymentConfigSecretName config region) = some e →
      (upsertDeploymentConfig store config region value).2 = .replaced ∧
      (upsertDeploymentConfig store config region value).1.lookup
          (calcDeploymentConfigSecretName config region) = some ⟨value, e.tags⟩ ∧
      ∀ k, k ≠ calcDeploymentConfigSecretName config region →
        (upsertDeploymentConfig store config region value).1.lookup k = store.lookup k) := by
  refine ⟨rfl, ?_, ?_⟩
  · intro h
    simp [upsertDeploymentConfig, h]
  · intro e he
    refine ⟨by simp [upsertDeploymentConfig, he], ?_, ?_⟩
    · simp only [upsertDeploymentConfig, he]
      exact lookup_put_self _ value store e he
    · intro k hk
      simp only [upsertDeploymentConfig, he]
      exact lookup_put_other _ value k hk store

/-- Witness for C5: on an empty store the secret is created at the computed name
with the fixed tags; on a store holding it, the value is replaced in place with
the tags kept. -/
theorem deploymentConfigSecret_name_and_upsert_witness :
    calcDeploymentConfigSecretName sampleConfig "us-west-2" =
      "deltastream/prod/dp/ds123/aws/us-west-2/0/deployment-config" ∧
    upsertDeploymentConfig [] sampleConfig "us-west-2" "doc" =
      ([("deltastream/prod/dp/ds123/aws/us-west-2/0/deployment-config",
         ⟨"doc", deploymentConfigTags sampleConfig "us-west-2"⟩)], .created) ∧
    (upsertDeploymentConfig
        [("deltastream/prod/dp/ds123/aws/us-west-2/0/deployment-config",
          ⟨"old", [("t", "1")]⟩)] sampleConfig "us-west-2" "doc").1.lookup
        (calcDeploymentConfigSecretName sampleConfig "us-west-2") =
      some ⟨"doc", [("t", "1")]⟩ :=
  ⟨(deploymentConfigSecret_name_and_upsert sampleConfig "us-west-2" [] "doc").1.trans
     (by decide),
   (deploymentConfigSecret_name_and_upsert sampleConfig "us-west-2" [] "doc").2.1
     (by decide),
   ((deploymentConfigSecret_name_and_upsert sampleConfig "us-west-2"
       [("deltastream/prod/dp/ds123/aws/us-west-2/0/deployment-config",
         ⟨"old", [("t", "1")]⟩)] "doc").2.2 ⟨"old", [("t", "1")]⟩ (by decide)).2.1⟩

/-! ## C3: cluster-settings optional fields and the custom-credentials flag -/

/-- C3: in the published cluster-settings object every optional field
(certificate ARNs, ingress security-group lists, custom-credentials role) is
present as a key, mapped to the empty string when the field is unset (null or
unknown) and to the verbatim value when set; and enableCustomCredentialsPlugin
is "enabled" exactly when the custom-credentials role ARN is neither null nor
unknown, and "disabled" otherwise. -/
theorem clusterSettings_optional_fields (config : ClusterConfiguration)
    (r cn ep oi ph : String) :
    ((config.o11yTlsCertificateArn = .null ∨ config.o11yTlsCertificateArn = .unknown) →
      (buildClusterSettings config r cn ep oi ph).lookup "grafanaNlbCertificateArn" = some "") ∧
    (∀ s, config.o11yTlsCertificateArn = .known s →
      (buildClusterSettings config r cn ep oi ph).lookup "grafanaNlbCertificateArn" = some s) ∧
    ((config.apiTlsCertificateArn = .null ∨ config.apiTlsCertificateArn = .unknown) →
      (buildClusterSettings config r cn ep oi ph).lookup "apiServerNlbCertificateArn" = some "") ∧
    (∀ s, config.apiTlsCertificateArn = .known s →
      (buildClusterSettings config r cn ep oi ph).lookup "apiServerNlbCertificateArn" = some s) ∧
    ((config.o11yIngressSecurityGroups = .null ∨ config.o11yIngressSecurityGroups = .unknown) →
      (buildClusterSettings config r cn ep oi ph).lookup "o11yEndpointSecurityGroups" = some "") ∧
    (∀ s, config.o11yIngressSecurityGroups = .known s →
      (buildClusterSettings config r cn ep oi ph).lookup "o11yEndpointSecurityGroups" = some s) ∧
    ((config.apiIngressSecurityGroups = .null ∨ config.apiIngressSecurityGroups = .unknown) →
      (buildClusterSettings config r cn ep oi ph).lookup "apiEndpointSecurityGroups" = some "") ∧
    (∀ s, config.apiIngressSecurityGroups = .known s →
      (buildClusterSettings config r cn ep oi ph).lookup "apiEndpointSecurityGroups" = some s) ∧
    ((config.customCredentialsRoleARN = .null ∨ config.customCredentialsRoleARN = .unknown) →
      (buildClusterSettings config r cn ep oi ph).lookup "customCredentialsRoleARN" = some "") ∧
    (∀ s, config.customCredentialsRoleARN = .known s →
      (buildClusterSettings config r cn ep oi ph).lookup "customCredentialsRoleARN" = some s) ∧
    ((config.customCredentialsRoleARN = .null ∨ config.customCredentialsRoleARN = .unknown) →
      (buildClusterSettings config r cn ep oi ph).lookup "enableCustomCredentialsPlugin" =
        some "disabled") ∧
    (∀ s, config.customCredentialsRoleARN = .known s →
      (buildClusterSettings config r cn ep oi ph).lookup "enableCustomCredentialsPlugin" =
        some "enabled") := by
  have b1 : (buildClusterSettings config r cn ep oi ph).lookup "grafanaNlbCertificateArn" =
      some (config.o11yTlsCertificateArn.valueStringPointer.getD "") := rfl
  have b2 : (buildClusterSettings config r cn ep oi ph).lookup "apiServerNlbCertificateArn" =
      some (config.apiTlsCertificateArn.valueStringPointer.getD "") := rfl
  have b3 : (buildClusterSettings config r cn ep oi ph).lookup "o11yEndpointSecurityGroups" =
      some (config.o11yIngressSecurityGroups.valueStringPointer.getD "") := rfl
  have b4 : (buildClusterSettings config r cn ep oi ph).lookup "apiEndpointSecurityGroups" =
      some (config.apiIngressSecurityGroups.valueStringPointer.getD "") := rfl
  have b5 : (buildClusterSettings config r cn ep oi ph).lookup "customCredentialsRoleARN" =
      some (config.customCredentialsRoleARN.valueStringPointer.getD "") := rfl
  have b6 : (buildClusterSettings config r cn ep oi ph).lookup "enableCustomCredentialsPlugin" =
      some (customCredentialsEnabled config) := rfl
  refine ⟨?_, ?_, ?_, ?_, ?_, ?_, ?_, ?_, ?_, ?_, ?_, ?_⟩
  · rintro (h | h) <;> rw [b1, h] <;> rfl
  · intro s hs; rw [b1, hs]; rfl
  · rintro (h | h) <;> rw [b2, h] <;> rfl
  · intro s hs; rw [b2, hs]; rfl
  · rintro (h | h) <;> rw [b3, h] <;> rfl
  · intro s hs; rw [b3, hs]; rfl
  · rintro (h | h) <;> rw [b4, h] <;> rfl
  · intro s hs; rw [b4, hs]; rfl
  · rintro (h | h) <;> rw [b5, h] <;> rfl
  · intro s hs; rw [b5, hs]; rfl
  · rintro (h | h) <;> rw [b6] <;>
      simp [customCredentialsEnabled, h, TfString.isNull, TfString.isUnknown]
  · intro s hs; rw [b6]
    simp [customCredentialsEnabled, hs, TfString.isNull, TfString.isUnknown]

/-- Witness for C3: with the custom-credentials role unset the key holds the
empty string and the flag reads "disabled"; with it set the value is copied
verbatim and the flag reads "enabled". -/
theorem clusterSettings_optional_fields_witness :
    (buildClusterSettings sampleConfig "us-west-2" "cn" "ep" "iss" "mh").lookup
        "grafanaNlbCertificateArn" = some "" ∧
    (buildClusterSettings sampleConfig "us-west-2" "cn" "ep" "iss" "mh").lookup
        "enableCustomCredentialsPlugin" = some "disabled" ∧
    (buildClusterSettings
        { sampleConfig with customCredentialsRoleARN := .known "arn:aws:iam::123456789012:role/cc" }
        "us-west-2" "cn" "ep" "iss" "mh").lookup "customCredentialsRoleARN" =
      some "arn:aws:iam::123456789012:role/cc" ∧
    (buildClusterSettings
        { sampleConfig with customCredentialsRoleARN := .known "arn:aws:iam::123456789012:role/cc" }
        "us-west-2" "cn" "ep" "iss" "mh").lookup "enableCustomCredentialsPlugin" =
      some "enabled" :=
  ⟨(clusterSettings_optional_fields sampleConfig "us-west-2" "cn" "ep" "iss" "mh").1
     (Or.inl rfl),
   (clusterSettings_optional_fields sampleConfig "us-west-2" "cn" "ep" "iss" "mh").2.2.2.2.2.2.2.2.2.2.1
     (Or.inl rfl),
   (clusterSettings_optional_fields
      { sampleConfig with customCredentialsRoleARN := .known "arn:aws:iam::123456789012:role/cc" }
      "us-west-2" "cn" "ep" "iss" "mh").2.2.2.2.2.2.2.2.2.1 _ rfl,
   (clusterSettings_optional_fields
      { sampleConfig with customCredentialsRoleARN := .known "arn:aws:iam::123456789012:role/cc" }
      "us-west-2" "cn" "ep" "iss" "mh").2.2.2.2.2.2.2.2.2.2.2 _ rfl⟩

/-! ## C1: conflict handling of the idempotent-apply primitive -/

/-- C1: on a stale-resource-version conflict, the current apply primitive
(`util.ApplyManifests`) re-runs the whole fetch-mutate-write cycle — the next
attempt reads the conflicting writer's state, takes its fresh resourceVersion and
writes the caller's intended data, succeeding within the 5-retry bound. The
legacy primitive (`applyManifests`, part_003) performs a single Get and then an
Update whose error is never marked retryable: under the same single-conflict
schedule its one Update carries the stale token 0, the apply fails, and the
cluster is left with the conflicting writer's data instead of the caller's
mutation. -/
theorem applyManifest_conflict_refetch_vs_legacy :
    applyManifestLoop "desired" conflictOnceInterf 6 0 (some ⟨0, "old"⟩) =
      (true, some ⟨2, "desired"⟩) ∧
    legacyApplyManifest "desired" conflictOnceInterf (some ⟨0, "old"⟩) =
      (false, some ⟨1, "other"⟩) := by
  constructor <;> rfl

/-! ## C6: image mirror -/

/-- C6: every copy in the image-mirror loop goes from the vendor account's
registry to the destination account's registry with the repository path and tag
(the image string) appended verbatim to both sides, so only the registry
host/account differs; when no copy fails the loop attempts exactly the listed
images in order; and a failing copy aborts the loop so that none of the
remaining images is attempted. -/
theorem copyImages_tag_for_tag_and_abort (copyFails : String → String → Bool)
    (dsAccountId accountId region : String) :
    (∀ image : String,
      sourceImageRef dsAccountId region image =
        "//" ++ dsAccountId ++ ".dkr.ecr." ++ region ++ ".amazonaws.com/" ++ image ∧
      destImageRef accountId region image =
        "//" ++ accountId ++ ".dkr.ecr." ++ region ++ ".amazonaws.com/" ++ image) ∧
    (∀ images : List String,
      (∀ i ∈ images,
        copyFails (sourceImageRef dsAccountId region i) (destImageRef accountId region i) =
          false) →
      copyImagesLoop copyFails dsAccountId accountId region images =
        (images.map (fun i =>
          (sourceImageRef dsAccountId region i, destImageRef accountId region i)), true)) ∧
    (∀ (pre post : List String) (bad : String),
      (∀ i ∈ pre,
        copyFails (sourceImageRef dsAccountId region i) (destImageRef accountId region i) =
          false) →
      copyFails (sourceImageRef dsAccountId region bad) (destImageRef accountId region bad) =
        true →
      copyImagesLoop copyFails dsAccountId accountId region (pre ++ bad :: post) =
        (pre.map (fun i =>
          (sourceImageRef dsAccountId region i, destImageRef accountId region i)) ++
            [(sourceImageRef dsAccountId region bad, destImageRef accountId region bad)],
         false)) := by
  refine ⟨fun image => ⟨rfl, rfl⟩, ?_, ?_⟩
  · intro images
    induction images with
    | nil => intro _; rfl
    | cons i rest ih =>
      intro h
      have hi := h i (List.mem_cons_self i rest)
      have hrest := ih (fun j hj => h j (List.mem_cons_of_mem i hj))
      simp [copyImagesLoop, hi, hrest]
  · intro pre
    induction pre with
    | nil =>
      intro post bad _ hbad
      simp [copyImagesLoop, hbad]
    | cons i rest ih =>
      intro post bad h hbad
      have hi := h i (List.mem_cons_self i rest)
      have hrest := ih post bad (fun j hj => h j (List.mem_cons_of_mem i hj)) hbad
      simp [copyImagesLoop, hi, hrest]

/-- Witness for C6: a concrete two-image list mirrors both images tag-for-tag,
and with a failure on the first image the second is never attempted. -/
theorem copyImages_tag_for_tag_and_abort_witness :
    copyImagesLoop (fun _ _ => false) "345678901234" "123456789012" "us-west-2"
        ["deltastreaminc/api:v1.0.0", "deltastreaminc/worker:v1.0.0"] =
      ([("//345678901234.dkr.ecr.us-west-2.amazonaws.com/deltastreaminc/api:v1.0.0",
         "//123456789012.dkr.ecr.us-west-2.amazonaws.com/deltastreaminc/api:v1.0.0"),
        ("//345678901234.dkr.ecr.us-west-2.amazonaws.com/deltastreaminc/worker:v1.0.0",
         "//123456789012.dkr.ecr.us-west-2.amazonaws.com/deltastreaminc/worker:v1.0.0")],
       true) ∧
    copyImagesLoop (fun _ _ => true) "345678901234" "123456789012" "us-west-2"
        ["deltastreaminc/api:v1.0.0", "deltastreaminc/worker:v1.0.0"] =
      ([("//345678901234.dkr.ecr.us-west-2.amazonaws.com/deltastreaminc/api:v1.0.0",
         "//123456789012.dkr.ecr.us-west-2.amazonaws.com/deltastreaminc/api:v1.0.0")],
       false) :=
  ⟨((copyImages_tag_for_tag_and_abort (fun _ _ => false) "345678901234" "123456789012"
      "us-west-2").2.1 ["deltastreaminc/api:v1.0.0", "deltastreaminc/worker:v1.0.0"]
      (by intro i _; rfl)).trans (by decide),
   ((copyImages_tag_for_tag_and_abort (fun _ _ => true) "345678901234" "123456789012"
      "us-west-2").2.2 [] ["deltastreaminc/worker:v1.0.0"] "deltastreaminc/api:v1.0.0"
      (by intro i hi; cases hi) rfl).trans (by decide)⟩

/-! ## C8: deleting an absent kustomization is a no-op -/

/-- C8: when the kustomization does not exist (the get answers not-found), the
get maps not-found to an absent result without error and the delete call is
never issued; and when the object exists but the delete call itself answers
not-found, the deletion is still treated as success. -/
theorem deleteKustomization_absent_noop (getResp delResp : Nat → ApiResp) :
    (getResp 0 = .notFound → deleteKustomizationRun getResp delResp = ⟨false, false⟩) ∧
    (getResp 0 = .ok → delResp 0 = .notFound →
      deleteKustomizationRun getResp delResp = ⟨false, true⟩) := by
  constructor
  · intro h
    simp [deleteKustomizationRun, getKustomizationLoop, h]
  · intro h1 h2
    simp [deleteKustomizationRun, getKustomizationLoop, deleteKustomizationLoop, h1, h2]

/-- Witness for C8: with the API answering not-found to every get, the run ends
with no error and no delete call; with the object present and the delete
answering not-found, the run still ends with no error. -/
theorem deleteKustomization_absent_noop_witness :
    deleteKustomizationRun (fun _ => ApiResp.notFound) (fun _ => ApiResp.ok) =
      ⟨false, false⟩ ∧
    deleteKustomizationRun (fun _ => ApiResp.ok) (fun _ => ApiResp.notFound) =
      ⟨false, true⟩ :=
  ⟨(deleteKustomization_absent_noop (fun _ => ApiResp.notFound) (fun _ => ApiResp.ok)).1 rfl,
   (deleteKustomization_absent_noop (fun _ => ApiResp.ok) (fun _ => ApiResp.notFound)).2
     rfl rfl⟩

/-! ## C9: default-CNI removal and node restart -/

/-- C9: in the remove-default-CNI step, absence of the aws-node daemonset or its
service account is not an error and the corresponding deletion is skipped, and
(when the issued deletions succeed) the node-group instances are rebooted if and
only if at least one of the two objects was present and deleted. -/
theorem deleteAwsNode_restart_iff (env : CNIEnv)
    (hds : env.dsDeleteOk = true) (hsa : env.saDeleteOk = true) :
    (deleteAwsNodeRun env).error = false ∧
    (deleteAwsNodeRun env).dsDeleted = env.dsPresent ∧
    (deleteAwsNodeRun env).saDeleted = env.saPresent ∧
    (deleteAwsNodeRun env).restartCalled = (env.dsPresent || env.saPresent) := by
  obtain ⟨ds, sa, dok, sok⟩ := env
  cases hds
  cases hsa
  cases ds <;> cases sa <;> simp [deleteAwsNodeRun]

/-- Witness for C9: with both objects absent the step is an error-free no-op
with no reboot; with only the daemonset present, it is deleted and the reboot is
triggered. -/
theorem deleteAwsNode_restart_iff_witness :
    (deleteAwsNodeRun ⟨false, false, true, true⟩).error = false ∧
    (deleteAwsNodeRun ⟨false, false, true, true⟩).restartCalled = false ∧
    (deleteAwsNodeRun ⟨true, false, true, true⟩).restartCalled = true :=
  ⟨(deleteAwsNode_restart_iff ⟨false, false, true, true⟩ rfl rfl).1,
   (deleteAwsNode_restart_iff ⟨false, false, true, true⟩ rfl rfl).2.2.2,
   (deleteAwsNode_restart_iff ⟨true, false, true, true⟩ rfl rfl).2.2.2⟩

/-! ## C7: the kustomization-deletion allow-list -/

theorem deleteManaged_mem_not_skip (outcome : String → KOutcome) (n : String) :
    ∀ l : List String,
      Event.deleteAttempt n ∈ (deleteManagedKustomizations outcome l).1 →
      kustomizationDeleteSkip n = false
  | [], h => by simp [deleteManagedKustomizations] at h
  | x :: rest, h => by
    by_cases hskip : kustomizationDeleteSkip x
    · rw [deleteManagedKustomizations, if_pos hskip] at h
      exact deleteManaged_mem_not_skip outcome n rest h
    · rw [deleteManagedKustomizations, if_neg hskip] at h
      have hx : ∀ e ∈ (deleteStep x (outcome x)).1,
          e = Event.deleteAttempt x ∨ e = Event.deleteDone x :=
        fun e he => mem_deleteStep x (outcome x) he
      rcases hok : (deleteStep x (outcome x)).2 with _ | _
      · rw [hok] at h
        simp only [Bool.false_eq_true, if_false] at h
        rcases hx _ h with he | he
        · have : n = x := by simpa using he
          subst this
          simpa using hskip
        · simp at he
      · rw [hok] at h
        simp only [if_true] at h
        rcases List.mem_append.mp h with h | h
        · rcases hx _ h with he | he
          · have : n = x := by simpa using he
            subst this
            simpa using hskip
          · simp at he
        · exact deleteManaged_mem_not_skip outcome n rest h

theorem deleteManaged_mem_of_not_skip (outcome : String → KOutcome) (n : String)
    (hn : kustomizationDeleteSkip n = false) :
    ∀ l : List String,
      (∀ name ∈ l, outcome name = .absent ∨ outcome name = .present) →
      n ∈ l →
      Event.deleteAttempt n ∈ (deleteManagedKustomizations outcome l).1
  | [], _, hmem => by cases hmem
  | x :: rest, hok, hmem => by
    have hokx := hok x (List.mem_cons_self x rest)
    have hokr : ∀ name ∈ rest, outcome name = .absent ∨ outcome name = .present :=
      fun name hname => hok name (List.mem_cons_of_mem x hname)
    rcases List.mem_cons.mp hmem with rfl | hmem
    · rw [deleteManagedKustomizations, if_neg (by simp [hn])]
      rcases hokx with h | h <;> simp [deleteStep, h]
    · by_cases hskip : kustomizationDeleteSkip x
      · rw [deleteManagedKustomizations, if_pos hskip]
        exact deleteManaged_mem_of_not_skip outcome n hn rest hokr hmem
      · rw [deleteManagedKustomizations, if_neg hskip]
        have h2 : (deleteStep x (outcome x)).2 = true := by
          rcases hokx with h | h <;> simp [deleteStep, h]
        rw [h2, if_pos rfl]
        exact List.mem_append_right _
          (deleteManaged_mem_of_not_skip outcome n hn rest hokr hmem)

/-- C7 (amended): in the blanket kustomization-deletion loop of `Cleanup`
(`deployment-config.go` lines 470-479), when every listed kustomization step
succeeds, a listed kustomization is deleted if and only if its name is outside
the hardcoded skip set — which is not just the foundational CNI /
node-provisioner / policy-engine trio but also includes "infra", the
platform kustomization (skip set: infra, cilium, cilium-cluster-policies,
karpenter, kyverno, kyverno-policies). -/
theorem managedKustomizations_delete_iff_not_in_skipSet (outcome : String → KOutcome)
    (listing : List String)
    (hok : ∀ name ∈ listing, outcome name = .absent ∨ outcome name = .present) :
    ∀ name ∈ listing,
      (Event.deleteAttempt name ∈ (deleteManagedKustomizations outcome listing).1 ↔
        kustomizationDeleteSkip name = false) := by
  intro name hname
  constructor
  · exact deleteManaged_mem_not_skip outcome name listing
  · intro hn
    exact deleteManaged_mem_of_not_skip outcome name hn listing hok hname

/-- Counterexample for C7 as stated: "infra" is not in the foundational
allow-list the claim names (CNI, node-provisioner, policy-engine), yet in a run
over the listing ["infra", "dp-loki"] with every object present the loop never
deletes it, while the non-foundational "dp-loki" is deleted. -/
theorem managedKustomizations_infra_never_deleted :
    "infra" ∉ specFoundationalAllowList ∧
    "infra" ∈ ["infra", "dp-loki"] ∧
    Event.deleteAttempt "infra" ∉
      (deleteManagedKustomizations (fun _ => KOutcome.present) ["infra", "dp-loki"]).1 ∧
    Event.deleteAttempt "dp-loki" ∈
      (deleteManagedKustomizations (fun _ => KOutcome.present) ["infra", "dp-loki"]).1 := by
  refine ⟨by decide, by decide, ?_, ?_⟩ <;>
    simp [deleteManagedKustomizations, kustomizationDeleteSkip, deleteStep]

/-- Witness for C7 (amended) at a concrete listing: the non-skip-listed
kustomization "dp-loki" is deleted. -/
theorem managedKustomizations_delete_iff_witness :
    (Event.deleteAttempt "dp-loki" ∈
        (deleteManagedKustomizations (fun _ => KOutcome.present) ["infra", "dp-loki"]).1 ↔
      kustomizationDeleteSkip "dp-loki" = false) :=
  managedKustomizations_delete_iff_not_in_skipSet (fun _ => KOutcome.present)
    ["infra", "dp-loki"] (by intro name _; right; rfl) "dp-loki" (by decide)

/-! ## C4: teardown ordering -/

theorem suspendAttempt_notMem_deleteStep (s name : String) (o : KOutcome) :
    Event.suspendAttempt s ∉ (deleteStep name o).1 := by
  intro h
  rcases mem_deleteStep name o h with h | h <;> simp at h

theorem suspendAttempt_notMem_lb (s : String) (svcs : List Svc) :
    Event.suspendAttempt s ∉ (deleteLbServices svcs).1 := by
  intro h
  rcases mem_deleteLbServices svcs h with ⟨t, ht⟩
  simp at ht

/-- C4: in every execution of the teardown orchestrator `Cleanup`, the suspend
of the istio kustomization completes (or the kustomization is confirmed absent)
before any LoadBalancer Service in the istio-system namespace is deleted, and
the data-plane kustomization deletion completes before the suspend of the
infra (platform) kustomization is even attempted. -/
theorem cleanup_ordering (env : CleanupEnv) :
    (∀ s, Precedes (.suspendDone "istio") (.svcDelete s) (cleanupTrace env)) ∧
    Precedes (.deleteDone "data-plane") (.suspendAttempt "infra") (cleanupTrace env) := by
  obtain ⟨istio, listOk, services, dataPlane, infraS, obsA, obsv, karp, infraD, sec⟩ := env
  constructor
  · intro s
    cases istio with
    | getFatal =>
      apply precedes_of_notMem
      simp [cleanupTrace, suspendStep]
    | opFatal =>
      apply precedes_of_notMem
      simp [cleanupTrace, suspendStep]
    | absent | present =>
      simp only [cleanupTrace, suspendStep, Bool.not_true, Bool.false_eq_true, if_false]
      repeat' apply precedes_ite
      all_goals
        exact precedes_of_split [Event.suspendAttempt "istio"] _ (by simp) (by simp)
  · cases istio with
    | getFatal =>
      apply precedes_of_notMem
      simp [cleanupTrace, suspendStep]
    | opFatal =>
      apply precedes_of_notMem
      simp [cleanupTrace, suspendStep]
    | absent | present =>
      simp only [cleanupTrace, suspendStep, Bool.not_true, Bool.false_eq_true, if_false]
      apply precedes_ite_h
      · intro _
        apply precedes_of_notMem
        simp
      · intro _
        apply precedes_ite_h
        · intro _
          apply precedes_of_notMem
          intro hm
          rcases List.mem_append.mp hm with hm | hm
          · simp at hm
          · exact suspendAttempt_notMem_lb _ _ hm
        · intro _
          apply precedes_ite_h
          · intro _
            apply precedes_of_notMem
            intro hm
            rcases List.mem_append.mp hm with hm | hm
            · rcases List.mem_append.mp hm with hm | hm
              · simp at hm
              · exact suspendAttempt_notMem_lb _ _ hm
            · exact suspendAttempt_notMem_deleteStep _ _ _ hm
          · intro h3
            have h3' : (deleteStep "data-plane" dataPlane).2 = true := by
              simpa using h3
            rw [deleteStep_ok _ _ h3']
            repeat' apply precedes_ite
            all_goals
              try simp only [List.append_assoc, List.cons_append, List.nil_append]
            all_goals
              refine precedes_append_left
                [Event.suspendAttempt "istio", Event.suspendDone "istio"] _ ?_
                (precedes_append_left _ _ (suspendAttempt_notMem_lb _ _)
                  (precedes_of_split [Event.deleteAttempt "data-plane"] _ ?_ ?_)) <;> simp

/-- Witness for C4: in a concrete full teardown the LoadBalancer Service
deletion at position 2 is preceded by the completed istio suspend, and the infra
suspend attempt at position 5 is preceded by the completed data-plane deletion. -/
theorem cleanup_ordering_witness :
    (cleanupTrace sampleCleanupEnv)[2]? = some (.svcDelete "istio-ingress") ∧
    (∃ m : Nat, m < 2 ∧ (cleanupTrace sampleCleanupEnv)[m]? = some (.suspendDone "istio")) ∧
    (cleanupTrace sampleCleanupEnv)[5]? = some (.suspendAttempt "infra") ∧
    (∃ m : Nat, m < 5 ∧
      (cleanupTrace sampleCleanupEnv)[m]? = some (.deleteDone "data-plane")) :=
  ⟨by decide,
   (cleanup_ordering sampleCleanupEnv).1 "istio-ingress" 2 (by decide),
   by decide,
   (cleanup_ordering sampleCleanupEnv).2 5 (by decide)⟩
